import Mathlib

/-!
Shallow embedding of the HarmonyLearn-v2 server (src/server/env.ts,
src/server/routes.ts, src/server/storage.ts, and the shared zod schemas
in src/shared/types).  The relational store is modelled as an in-memory
`DB` value; every storage function becomes an `Except Unit`-valued
operation that fails when the database connection is down (modelling the
untyped error propagation described in the spec) or when the underlying
Prisma call would throw (missing row on update/delete, unique-constraint
violation on user creation).  Route handlers become pure functions from
the database state and the parsed request to a status code, an optional
response payload and the resulting database state.
-/

namespace HarmonyLearn

/-- Behaviour of the external libraries the server code calls:
`bcrypt.hash` (routes.ts:17), `bcrypt.compare` (routes.ts:23) and zod's
`z.string().email()` check used by `insertUserSchema`.  These are not
code of this repository, so the development is parameterised over them;
theorems state the contract they assume and witnesses discharge it on
the concrete `extModel` below. -/
structure Ext where
  hash : String → String
  compare : String → String → Bool
  emailValid : String → Bool

/-- JavaScript truthiness of a possibly-absent string value:
`undefined` and the empty string are falsy. -/
def truthyStr : Option String → Bool
  | none => false
  | some s => !(s == "")

/-- JavaScript truthiness of a possibly-absent numeric id value:
`undefined` and `0` are falsy. -/
def truthyNat : Option Nat → Bool
  | none => false
  | some n => !(n == 0)

/-- Semantics of spreading a partial-update field over an existing
optional column: a provided value overwrites, an absent one keeps the
stored value (Prisma ignores `undefined` fields in `data`). -/
def mergeOpt (u : Option α) (old : Option α) : Option α :=
  match u with
  | some v => some v
  | none => old

/-- JSON scalar values, used to model the serialized response bodies
(only flat objects of scalars are needed: the user object returned by
the auth endpoints). -/
inductive JVal where
  | s (v : String)
  | n (v : Int)
  | b (v : Bool)
  | null
deriving DecidableEq

/-- Serialization of an absent string column as JSON `null`. -/
def joptS : Option String → JVal
  | none => JVal.null
  | some v => JVal.s v

/-- A `users` row as stored by Prisma (fields of the `User` type in
src/shared/types plus the `password` column, which the row carries and
the auth handlers read and strip). -/
structure User where
  id : Nat
  username : String
  password : String
  email : String
  role : String
  isMaster : Bool
  firstName : Option String
  lastName : Option String
  avatar : Option String
  bio : Option String
  xp : Int
  level : Int
  createdAt : Nat
deriving DecidableEq

/-- A `courses` row: the fields of `insertCourseSchema` plus the id and
creation timestamp assigned by the store. -/
structure Course where
  id : Nat
  title : String
  description : Option String
  category : String
  level : String
  price : Option Int
  duration : Option Int
  mentorId : Option Nat
  imageUrl : Option String
  isActive : Bool
  status : String
  approvedBy : Option Nat
  adminNotes : Option String
  syllabus : Option String
  prerequisites : List String
  learningObjectives : List String
  targetAudience : Option String
  difficulty : Int
  estimatedWeeks : Option Int
  maxStudents : Int
  currentEnrollments : Int
  tags : List String
  createdAt : Nat
deriving DecidableEq

/-- A `classrooms` row: the fields of `insertClassroomSchema` plus the
id and creation timestamp assigned by the store. -/
structure Classroom where
  id : Nat
  title : String
  subject : String
  level : String
  description : Option String
  masterId : Option Nat
  maxStudents : Int
  isActive : Bool
  academyName : Option String
  about : Option String
  instruments : List String
  curriculum : Option String
  heroImage : Option String
  logoImage : Option String
  aboutImage : Option String
  primaryColor : String
  secondaryColor : String
  contactEmail : Option String
  contactPhone : Option String
  website : Option String
  socialLinks : Option String
  features : List String
  testimonials : Option String
  pricing : Option String
  schedule : Option String
  address : Option String
  isPublic : Bool
  customSlug : Option String
  createdAt : Nat
deriving DecidableEq

/-- A `staffRequests` row (fields read and written by
storage.ts getStaffRequests/updateStaffRequest). -/
structure StaffRequest where
  id : Nat
  mentorId : Nat
  classroomId : Nat
  message : Option String
  status : String
  reviewedBy : Option Nat
  adminNotes : Option String
  reviewedAt : Option Nat
  createdAt : Nat
deriving DecidableEq

/-- A `masterRoleRequests` row (fields read and written by
storage.ts createMasterRoleRequest/updateMasterRoleRequest). -/
structure MasterRoleRequest where
  id : Nat
  mentorId : Nat
  experience : String
  qualifications : String
  motivation : String
  portfolio : Option String
  status : String
  reviewedBy : Option Nat
  adminNotes : Option String
  approvedAt : Option Nat
  rejectedAt : Option Nat
  reviewedAt : Option Nat
  createdAt : Nat
deriving DecidableEq

/-- A `resignationRequests` row (fields read and written by
storage.ts createResignationRequest/updateResignationRequest). -/
structure ResignationRequest where
  id : Nat
  mentorId : Nat
  classroomId : Nat
  reason : String
  lastWorkDate : Nat
  status : String
  reviewedBy : Option Nat
  masterNotes : Option String
  reviewedAt : Option Nat
  createdAt : Nat
deriving DecidableEq

/-- The relational store reached through the Prisma client, together
with a connectivity flag (`up = false` makes every query throw, the
failure mode the handlers map to 500/503) and the auto-increment
counters for the tables the claims exercise. -/
structure DB where
  up : Bool
  users : List User
  courses : List Course
  classrooms : List Classroom
  staffRequests : List StaffRequest
  masterRoleRequests : List MasterRoleRequest
  resignationRequests : List ResignationRequest
  nextUserId : Nat
  nextCourseId : Nat
  nextClassroomId : Nat
deriving DecidableEq

/-- An inbound user payload before validation: every field of
`insertUserSchema` may be present or absent. -/
structure UserInput where
  username : Option String
  password : Option String
  email : Option String
  role : Option String
  isMaster : Option Bool
  firstName : Option String
  lastName : Option String
  avatar : Option String
  bio : Option String
  xp : Option Int
  level : Option Int
deriving DecidableEq

/-- A user payload after `insertUserSchema.parse`: required fields
present, declared defaults applied. -/
structure InsertUser where
  username : String
  password : String
  email : String
  role : String
  isMaster : Bool
  firstName : Option String
  lastName : Option String
  avatar : Option String
  bio : Option String
  xp : Int
  level : Int
deriving DecidableEq

/-- Model of `insertUserSchema.parse` (src/shared/types): `username`,
`password` and `email` are required, `email` must pass zod's email
check, `role` defaults to "student", `isMaster` to `false`, `xp` to
`0` and `level` to `1`; the remaining fields are optional with no
default.  A `none` result models the thrown `ZodError`. -/
def parseInsertUser (ext : Ext) (i : UserInput) : Option InsertUser :=
  match i.username, i.password, i.email with
  | some u, some p, some e =>
    if ext.emailValid e then
      some { username := u, password := p, email := e,
             role := i.role.getD "student",
             isMaster := i.isMaster.getD false,
             firstName := i.firstName, lastName := i.lastName,
             avatar := i.avatar, bio := UserInput.bio i,
             xp := i.xp.getD 0, level := i.level.getD 1 }
    else none
  | _, _, _ => none

/-- An inbound course payload before validation. -/
structure CourseInput where
  title : Option String
  description : Option String
  category : Option String
  level : Option String
  price : Option Int
  duration : Option Int
  mentorId : Option Nat
  imageUrl : Option String
  isActive : Option Bool
  status : Option String
  approvedBy : Option Nat
  adminNotes : Option String
  syllabus : Option String
  prerequisites : Option (List String)
  learningObjectives : Option (List String)
  targetAudience : Option String
  difficulty : Option Int
  estimatedWeeks : Option Int
  maxStudents : Option Int
  currentEnrollments : Option Int
  tags : Option (List String)
deriving DecidableEq

/-- A course payload after `insertCourseSchema.parse`. -/
structure InsertCourse where
  title : String
  description : Option String
  category : String
  level : String
  price : Option Int
  duration : Option Int
  mentorId : Option Nat
  imageUrl : Option String
  isActive : Bool
  status : String
  approvedBy : Option Nat
  adminNotes : Option String
  syllabus : Option String
  prerequisites : List String
  learningObjectives : List String
  targetAudience : Option String
  difficulty : Int
  estimatedWeeks : Option Int
  maxStudents : Int
  currentEnrollments : Int
  tags : List String
deriving DecidableEq

/-- Model of `insertCourseSchema.parse` (src/shared/types): `title`,
`category` and `level` are required; `isActive` defaults to `true`,
`status` to "draft", `prerequisites`, `learningObjectives` and `tags`
to `[]`, `difficulty` to `1`, `maxStudents` to `100` and
`currentEnrollments` to `0`. -/
def parseInsertCourse (i : CourseInput) : Option InsertCourse :=
  match i.title, i.category, i.level with
  | some t, some c, some l =>
    some { title := t, description := i.description, category := c,
           level := l, price := i.price, duration := i.duration,
           mentorId := i.mentorId, imageUrl := i.imageUrl,
           isActive := i.isActive.getD true,
           status := i.status.getD "draft",
           approvedBy := i.approvedBy, adminNotes := i.adminNotes,
           syllabus := i.syllabus,
           prerequisites := i.prerequisites.getD [],
           learningObjectives := i.learningObjectives.getD [],
           targetAudience := i.targetAudience,
           difficulty := i.difficulty.getD 1,
           estimatedWeeks := i.estimatedWeeks,
           maxStudents := i.maxStudents.getD 100,
           currentEnrollments := i.currentEnrollments.getD 0,
           tags := i.tags.getD [] }
  | _, _, _ => none

/-- An inbound classroom payload before validation. -/
structure ClassroomInput where
  title : Option String
  subject : Option String
  level : Option String
  description : Option String
  masterId : Option Nat
  maxStudents : Option Int
  isActive : Option Bool
  academyName : Option String
  about : Option String
  instruments : Option (List String)
  curriculum : Option String
  heroImage : Option String
  logoImage : Option String
  aboutImage : Option String
  primaryColor : Option String
  secondaryColor : Option String
  contactEmail : Option String
  contactPhone : Option String
  website : Option String
  socialLinks : Option String
  features : Option (List String)
  testimonials : Option String
  pricing : Option String
  schedule : Option String
  address : Option String
  isPublic : Option Bool
  customSlug : Option String
deriving DecidableEq

/-- A classroom payload after `insertClassroomSchema.parse`. -/
structure InsertClassroom where
  title : String
  subject : String
  level : String
  description : Option String
  masterId : Option Nat
  maxStudents : Int
  isActive : Bool
  academyName : Option String
  about : Option String
  instruments : List String
  curriculum : Option String
  heroImage : Option String
  logoImage : Option String
  aboutImage : Option String
  primaryColor : String
  secondaryColor : String
  contactEmail : Option String
  contactPhone : Option String
  website : Option String
  socialLinks : Option String
  features : List String
  testimonials : Option String
  pricing : Option String
  schedule : Option String
  address : Option String
  isPublic : Bool
  customSlug : Option String
deriving DecidableEq

/-- Model of `insertClassroomSchema.parse` (src/shared/types): `title`,
`subject` and `level` are required; `maxStudents` defaults to `50`,
`isActive` and `isPublic` to `true`, `instruments` and `features` to
`[]`, `primaryColor` to "#3B82F6" and `secondaryColor` to "#10B981". -/
def parseInsertClassroom (i : ClassroomInput) : Option InsertClassroom :=
  match i.title, i.subject, i.level with
  | some t, some s, some l =>
    some { title := t, subject := s, level := l,
           description := i.description, masterId := i.masterId,
           maxStudents := i.maxStudents.getD 50,
           isActive := i.isActive.getD true,
           academyName := i.academyName, about := i.about,
           instruments := i.instruments.getD [],
           curriculum := i.curriculum, heroImage := i.heroImage,
           logoImage := i.logoImage, aboutImage := i.aboutImage,
           primaryColor := i.primaryColor.getD "#3B82F6",
           secondaryColor := i.secondaryColor.getD "#10B981",
           contactEmail := i.contactEmail,
           contactPhone := i.contactPhone, website := i.website,
           socialLinks := i.socialLinks,
           features := i.features.getD [],
           testimonials := i.testimonials, pricing := i.pricing,
           schedule := i.schedule, address := i.address,
           isPublic := i.isPublic.getD true,
           customSlug := i.customSlug }
  | _, _, _ => none

/-- The process environment restricted to the variables `envSchema`
declares (src/server/env.ts:4-26).  Each entry of `process.env` is a
string or unset. -/
structure EnvInput where
  NODE_ENV : Option String
  PORT : Option String
  DATABASE_URL : Option String
  SESSION_SECRET : Option String
  CORS_ORIGIN : Option String
  APP_NAME : Option String
  APP_VERSION : Option String
  DATABASE_SSL : Option String
  DATABASE_POOL_SIZE : Option String
  REQUEST_TIMEOUT : Option String
  BODY_LIMIT : Option String
deriving DecidableEq

/-- The parsed environment produced by `envSchema.parse`: every
defaulted variable holds a string, `DATABASE_URL` stays optional. -/
structure Env where
  NODE_ENV : String
  PORT : String
  DATABASE_URL : Option String
  SESSION_SECRET : String
  CORS_ORIGIN : String
  APP_NAME : String
  APP_VERSION : String
  DATABASE_SSL : String
  DATABASE_POOL_SIZE : String
  REQUEST_TIMEOUT : String
  BODY_LIMIT : String
deriving DecidableEq

/-- The values `z.enum` accepts for `NODE_ENV` (src/server/env.ts:5). -/
def nodeEnvValues : List String := ["development", "production", "test"]

/-- The eleven variable names declared by `envSchema`. -/
def envVarNames : List String :=
  ["NODE_ENV", "PORT", "DATABASE_URL", "SESSION_SECRET", "CORS_ORIGIN",
   "APP_NAME", "APP_VERSION", "DATABASE_SSL", "DATABASE_POOL_SIZE",
   "REQUEST_TIMEOUT", "BODY_LIMIT"]

/-- Lookup of a declared variable in the environment by name. -/
def envGet (i : EnvInput) : String → Option String
  | "NODE_ENV" => i.NODE_ENV
  | "PORT" => i.PORT
  | "DATABASE_URL" => i.DATABASE_URL
  | "SESSION_SECRET" => i.SESSION_SECRET
  | "CORS_ORIGIN" => i.CORS_ORIGIN
  | "APP_NAME" => i.APP_NAME
  | "APP_VERSION" => i.APP_VERSION
  | "DATABASE_SSL" => i.DATABASE_SSL
  | "DATABASE_POOL_SIZE" => i.DATABASE_POOL_SIZE
  | "REQUEST_TIMEOUT" => i.REQUEST_TIMEOUT
  | "BODY_LIMIT" => i.BODY_LIMIT
  | _ => none

/-- Validity of a set value for a declared variable under `envSchema`:
`NODE_ENV` must be one of the three enum values; every other declared
variable is a plain `z.string()` (or `z.string().optional()`), and any
string satisfies it. -/
def envVarValid : String → String → Bool
  | "NODE_ENV", v => nodeEnvValues.contains v
  | _, _ => true

/-- Model of `parseEnv` (src/server/env.ts:31-43): `envSchema.parse`
applies each declared default to an unset variable and throws (the
`Except.error` case, rethrown as "Environment validation failed")
when a set variable fails its declared check. -/
def parseEnv (i : EnvInput) : Except Unit Env :=
  if nodeEnvValues.contains (i.NODE_ENV.getD "development") then
    Except.ok
      { NODE_ENV := i.NODE_ENV.getD "development",
        PORT := i.PORT.getD "5000",
        DATABASE_URL := i.DATABASE_URL,
        SESSION_SECRET :=
          i.SESSION_SECRET.getD "fallback-secret-key-change-in-production",
        CORS_ORIGIN := i.CORS_ORIGIN.getD "*",
        APP_NAME := i.APP_NAME.getD "HarmonyLearn",
        APP_VERSION := i.APP_VERSION.getD "1.0.0",
        DATABASE_SSL := i.DATABASE_SSL.getD "false",
        DATABASE_POOL_SIZE := i.DATABASE_POOL_SIZE.getD "10",
        REQUEST_TIMEOUT := i.REQUEST_TIMEOUT.getD "30000",
        BODY_LIMIT := i.BODY_LIMIT.getD "10mb" }
  else Except.error ()

/-- Result check for the `Except`-valued storage operations. -/
def exceptOk : Except Unit α → Bool
  | Except.ok _ => true
  | Except.error _ => false

/-- Model of storage.getUsers (storage.ts:12): `findMany` over the
users table; throws when the database connection is down. -/
def getUsersOp (db : DB) : Except Unit (List User) :=
  if db.up then Except.ok db.users else Except.error ()

/-- Model of storage.getUserById (storage.ts:18): `findUnique` on the
primary key. -/
def getUserByIdOp (db : DB) (id : Nat) : Except Unit (Option User) :=
  if db.up then Except.ok (db.users.find? (fun u => u.id == id))
  else Except.error ()

/-- Model of storage.getUserByEmail (storage.ts:39): `findUnique` on
the unique email column. -/
def getUserByEmailOp (db : DB) (email : String) : Except Unit (Option User) :=
  if db.up then Except.ok (db.users.find? (fun u => u.email == email))
  else Except.error ()

/-- The fresh row inserted by storage.createUser for a validated
payload, with the store-assigned id and creation timestamp. -/
def mkUser (idv now : Nat) (data : InsertUser) : User :=
  { id := idv, username := data.username,
    password := data.password, email := data.email,
    role := data.role, isMaster := data.isMaster,
    firstName := data.firstName, lastName := data.lastName,
    avatar := data.avatar, bio := InsertUser.bio data,
    xp := data.xp, level := data.level, createdAt := now }

/-- Model of storage.createUser (storage.ts:45): re-parses the payload
with `insertUserSchema` (the only refinement that can fail on a
complete record is the email check) and inserts a fresh row;
the unique constraints on `username` and `email` that the spec
delegates to the relational store make the insert throw when either
value is already taken. -/
def createUserOp (ext : Ext) (db : DB) (now : Nat) (data : InsertUser) :
    Except Unit (User × DB) :=
  if db.up then
    if ext.emailValid data.email then
      if db.users.any
          (fun u => u.username == data.username || u.email == data.email) then
        Except.error ()
      else
        Except.ok (mkUser db.nextUserId now data,
          { db with users := mkUser db.nextUserId now data :: db.users,
                    nextUserId := db.nextUserId + 1 })
    else Except.error ()
  else Except.error ()

/-- Model of storage.getCourseById (storage.ts:81): `findUnique` on the
primary key (the eager-loaded relations do not change the row). -/
def getCourseByIdOp (db : DB) (id : Nat) : Except Unit (Option Course) :=
  if db.up then Except.ok (db.courses.find? (fun c => c.id == id))
  else Except.error ()

/-- The fresh row inserted by storage.createCourse for a validated
payload. -/
def mkCourse (idv now : Nat) (data : InsertCourse) : Course :=
  { id := idv, title := data.title,
    description := data.description, category := data.category,
    level := data.level, price := data.price,
    duration := data.duration, mentorId := data.mentorId,
    imageUrl := data.imageUrl, isActive := data.isActive,
    status := data.status, approvedBy := data.approvedBy,
    adminNotes := data.adminNotes, syllabus := data.syllabus,
    prerequisites := data.prerequisites,
    learningObjectives := data.learningObjectives,
    targetAudience := data.targetAudience,
    difficulty := data.difficulty,
    estimatedWeeks := data.estimatedWeeks,
    maxStudents := data.maxStudents,
    currentEnrollments := data.currentEnrollments,
    tags := data.tags, createdAt := now }

/-- Model of storage.createCourse (storage.ts:109): re-parses the
payload (no refinement can fail on a complete record) and inserts a
fresh row. -/
def createCourseOp (db : DB) (now : Nat) (data : InsertCourse) :
    Except Unit (Course × DB) :=
  if db.up then
    Except.ok (mkCourse db.nextCourseId now data,
      { db with courses := mkCourse db.nextCourseId now data :: db.courses,
                nextCourseId := db.nextCourseId + 1 })
  else Except.error ()

/-- A partial course update as accepted by storage.updateCourse
(`Partial<InsertCourse>`, passed unvalidated from the PATCH body). -/
structure CourseUpdate where
  title : Option String
  description : Option String
  category : Option String
  level : Option String
  price : Option Int
  duration : Option Int
  mentorId : Option Nat
  imageUrl : Option String
  isActive : Option Bool
  status : Option String
  approvedBy : Option Nat
  adminNotes : Option String
  syllabus : Option String
  prerequisites : Option (List String)
  learningObjectives : Option (List String)
  targetAudience : Option String
  difficulty : Option Int
  estimatedWeeks : Option Int
  maxStudents : Option Int
  currentEnrollments : Option Int
  tags : Option (List String)
deriving DecidableEq

/-- Application of a partial update to a stored course row: provided
fields overwrite, absent fields keep the stored value. -/
def applyCourseUpdate (u : CourseUpdate) (c : Course) : Course :=
  { c with
    title := u.title.getD c.title,
    description := mergeOpt u.description c.description,
    category := u.category.getD c.category,
    level := u.level.getD c.level,
    price := mergeOpt u.price c.price,
    duration := mergeOpt u.duration c.duration,
    mentorId := mergeOpt u.mentorId c.mentorId,
    imageUrl := mergeOpt u.imageUrl c.imageUrl,
    isActive := u.isActive.getD c.isActive,
    status := u.status.getD c.status,
    approvedBy := mergeOpt u.approvedBy c.approvedBy,
    adminNotes := mergeOpt u.adminNotes c.adminNotes,
    syllabus := mergeOpt u.syllabus c.syllabus,
    prerequisites := u.prerequisites.getD c.prerequisites,
    learningObjectives := u.learningObjectives.getD c.learningObjectives,
    targetAudience := mergeOpt u.targetAudience c.targetAudience,
    difficulty := u.difficulty.getD c.difficulty,
    estimatedWeeks := mergeOpt u.estimatedWeeks c.estimatedWeeks,
    maxStudents := u.maxStudents.getD c.maxStudents,
    currentEnrollments := u.currentEnrollments.getD c.currentEnrollments,
    tags := u.tags.getD c.tags }

/-- Model of storage.updateCourse (storage.ts:121): `prisma.course.update`
throws (error P2025) when no row has the given id. -/
def updateCourseOp (db : DB) (id : Nat) (u : CourseUpdate) :
    Except Unit (Course × DB) :=
  if db.up then
    match db.courses.find? (fun c => c.id == id) with
    | none => Except.error ()
    | some c =>
      let c2 := applyCourseUpdate u c
      Except.ok (c2,
        { db with courses :=
            (db.courses.map (fun x => if x.id == id then c2 else x)) })
  else Except.error ()

/-- Model of storage.deleteCourse (storage.ts:133): `prisma.course.delete`
throws (error P2025) when no row has the given id, and removes the row
otherwise. -/
def deleteCourseOp (db : DB) (id : Nat) : Except Unit DB :=
  if db.up then
    match db.courses.find? (fun c => c.id == id) with
    | none => Except.error ()
    | some _ =>
      Except.ok { db with courses := db.courses.filter (fun c => !(c.id == id)) }
  else Except.error ()

/-- Model of storage.getClassroomById (storage.ts:161). -/
def getClassroomByIdOp (db : DB) (id : Nat) : Except Unit (Option Classroom) :=
  if db.up then Except.ok (db.classrooms.find? (fun c => c.id == id))
  else Except.error ()

/-- The fresh row inserted by storage.createClassroom for a validated
payload. -/
def mkClassroom (idv now : Nat) (data : InsertClassroom) : Classroom :=
  { id := idv, title := data.title,
    subject := data.subject, level := data.level,
    description := data.description, masterId := data.masterId,
    maxStudents := data.maxStudents, isActive := data.isActive,
    academyName := data.academyName, about := data.about,
    instruments := data.instruments, curriculum := data.curriculum,
    heroImage := data.heroImage, logoImage := data.logoImage,
    aboutImage := data.aboutImage,
    primaryColor := data.primaryColor,
    secondaryColor := data.secondaryColor,
    contactEmail := data.contactEmail,
    contactPhone := data.contactPhone, website := data.website,
    socialLinks := data.socialLinks, features := data.features,
    testimonials := data.testimonials, pricing := data.pricing,
    schedule := data.schedule, address := data.address,
    isPublic := data.isPublic, customSlug := data.customSlug,
    createdAt := now }

/-- Model of storage.createClassroom (storage.ts:195). -/
def createClassroomOp (db : DB) (now : Nat) (data : InsertClassroom) :
    Except Unit (Classroom × DB) :=
  if db.up then
    Except.ok (mkClassroom db.nextClassroomId now data,
      { db with classrooms := mkClassroom db.nextClassroomId now data :: db.classrooms,
                nextClassroomId := db.nextClassroomId + 1 })
  else Except.error ()

/-- The names exported by the storage module (src/server/storage.ts),
in declaration order.  `export * from '@prisma/client'` re-exports only
the generated client's types and enums, no extra data-access function. -/
def storageExports : List String :=
  ["getUsers", "getUserById", "getUserByUsername", "getUserByEmail",
   "createUser", "updateUser", "deleteUser",
   "getCourses", "getCourseById", "createCourse", "updateCourse",
   "deleteCourse",
   "getClassrooms", "getClassroomById", "createClassroom",
   "updateClassroom", "deleteClassroom",
   "getEnrollments", "getEnrollmentsByUserId", "getEnrollmentsByCourseId",
   "createEnrollment", "updateEnrollment", "deleteEnrollment",
   "getClassroomMemberships", "createClassroomMembership",
   "updateClassroomMembership", "deleteClassroomMembership",
   "getLiveSessions", "getLiveSessionById", "createLiveSession",
   "updateLiveSession", "deleteLiveSession",
   "getMentorProfiles", "getMentorProfileById", "getMentorProfileByUserId",
   "createMentorProfile", "updateMentorProfile", "deleteMentorProfile",
   "getPosts", "getPostById", "createPost", "updatePost", "deletePost",
   "getStaffRequests", "getStaffRequestById", "createStaffRequest",
   "updateStaffRequest", "deleteStaffRequest",
   "getMasterRoleRequests", "getMasterRoleRequestById",
   "createMasterRoleRequest", "updateMasterRoleRequest",
   "deleteMasterRoleRequest",
   "getMentorshipRequests", "getMentorshipRequestById",
   "createMentorshipRequest", "updateMentorshipRequest",
   "deleteMentorshipRequest",
   "getMentorConversations", "createMentorConversation",
   "updateMentorConversation",
   "getSchedules", "getScheduleById", "createSchedule", "updateSchedule",
   "deleteSchedule",
   "getResignationRequests", "getResignationRequestById",
   "createResignationRequest", "updateResignationRequest",
   "getMentorshipSessions", "getMentorshipSessionById",
   "createMentorshipSession",
   "getStaffClassroomInfo"]

/-- Model of the call `storage.getClassroomBySlug(slug)` made at
routes.ts:228.  The storage module exports no `getClassroomBySlug`
(see `storageExports`), so the member access yields `undefined` and the
call throws a TypeError; the then-branch, reachable only if the export
existed, is modelled from the spec's slug lookup ("looking up each by
its own slug returns the matching classroom"). -/
def getClassroomBySlugOp (db : DB) (slug : String) :
    Except Unit (Option Classroom) :=
  if storageExports.contains "getClassroomBySlug" then
    if db.up then
      Except.ok (db.classrooms.find? (fun c => c.customSlug == some slug))
    else Except.error ()
  else Except.error ()

/-- A partial staff-request update as sent by the PATCH
/api/staff-requests/:id/status handler. -/
structure StaffRequestUpdate where
  status : Option String
  reviewedBy : Option Nat
  adminNotes : Option String
deriving DecidableEq

/-- Field application of storage.updateStaffRequest (storage.ts:672):
the spread copies the provided fields, and `reviewedAt` is stamped with
the current time exactly when both `status` and `reviewedBy` are
truthy. -/
def applyStaffRequestUpdate (now : Nat) (u : StaffRequestUpdate)
    (r : StaffRequest) : StaffRequest :=
  { r with
    status := u.status.getD r.status,
    reviewedBy := mergeOpt u.reviewedBy r.reviewedBy,
    adminNotes := mergeOpt u.adminNotes r.adminNotes,
    reviewedAt :=
      if truthyStr u.status && truthyNat u.reviewedBy then some now
      else r.reviewedAt }

/-- Model of storage.updateStaffRequest (storage.ts:672-697). -/
def updateStaffRequestOp (db : DB) (now : Nat) (id : Nat)
    (u : StaffRequestUpdate) : Except Unit (StaffRequest × DB) :=
  if db.up then
    match db.staffRequests.find? (fun r => r.id == id) with
    | none => Except.error ()
    | some r =>
      let r2 := applyStaffRequestUpdate now u r
      Except.ok (r2,
        { db with staffRequests :=
            (db.staffRequests.map (fun x => if x.id == id then r2 else x)) })
  else Except.error ()

/-- A partial master-role-request update as sent by the PATCH
/api/master-role-requests/:id/status handler. -/
structure MasterRoleRequestUpdate where
  status : Option String
  reviewedBy : Option Nat
  adminNotes : Option String
deriving DecidableEq

/-- Field application of storage.updateMasterRoleRequest
(storage.ts:755-782): `approvedAt` is stamped when the new status is
exactly "approved", `rejectedAt` when it is exactly "rejected", and
`reviewedAt` when `reviewedBy` is truthy. -/
def applyMasterRoleRequestUpdate (now : Nat) (u : MasterRoleRequestUpdate)
    (r : MasterRoleRequest) : MasterRoleRequest :=
  { r with
    status := u.status.getD r.status,
    reviewedBy := mergeOpt u.reviewedBy r.reviewedBy,
    adminNotes := mergeOpt u.adminNotes r.adminNotes,
    approvedAt := if u.status == some "approved" then some now else r.approvedAt,
    rejectedAt := if u.status == some "rejected" then some now else r.rejectedAt,
    reviewedAt := if truthyNat u.reviewedBy then some now else r.reviewedAt }

/-- Model of storage.updateMasterRoleRequest (storage.ts:755-782). -/
def updateMasterRoleRequestOp (db : DB) (now : Nat) (id : Nat)
    (u : MasterRoleRequestUpdate) : Except Unit (MasterRoleRequest × DB) :=
  if db.up then
    match db.masterRoleRequests.find? (fun r => r.id == id) with
    | none => Except.error ()
    | some r =>
      let r2 := applyMasterRoleRequestUpdate now u r
      Except.ok (r2,
        { db with masterRoleRequests :=
            (db.masterRoleRequests.map (fun x => if x.id == id then r2 else x)) })
  else Except.error ()

/-- A partial resignation-request update as sent by the PATCH
/api/resignation-requests/:id/status handler. -/
structure ResignationRequestUpdate where
  status : Option String
  reviewedBy : Option Nat
  masterNotes : Option String
deriving DecidableEq

/-- Field application of storage.updateResignationRequest
(storage.ts:1085-1107): `reviewedAt` is stamped exactly when
`reviewedBy` is truthy. -/
def applyResignationRequestUpdate (now : Nat) (u : ResignationRequestUpdate)
    (r : ResignationRequest) : ResignationRequest :=
  { r with
    status := u.status.getD r.status,
    reviewedBy := mergeOpt u.reviewedBy r.reviewedBy,
    masterNotes := mergeOpt u.masterNotes r.masterNotes,
    reviewedAt := if truthyNat u.reviewedBy then some now else r.reviewedAt }

/-- Model of storage.updateResignationRequest (storage.ts:1085-1107). -/
def updateResignationRequestOp (db : DB) (now : Nat) (id : Nat)
    (u : ResignationRequestUpdate) : Except Unit (ResignationRequest × DB) :=
  if db.up then
    match db.resignationRequests.find? (fun r => r.id == id) with
    | none => Except.error ()
    | some r =>
      let r2 := applyResignationRequestUpdate now u r
      Except.ok (r2,
        { db with resignationRequests :=
            (db.resignationRequests.map (fun x => if x.id == id then r2 else x)) })
  else Except.error ()

/-- The role actually passed to validation by the register handler
(routes.ts:95-98): `role || "student"`, so an absent or empty role
falls back to "student". -/
def registerRole (r : Option String) : String :=
  if truthyStr r then r.getD "" else "student"

/-- The JavaScript object a stored user row serializes to, as an
ordered key/value list; this is what `res.json(user)` would emit and
what the rest-destructuring in the auth handlers operates on. -/
def userEntries (u : User) : List (String × JVal) :=
  [("id", JVal.n u.id), ("username", JVal.s u.username),
   ("password", JVal.s u.password), ("email", JVal.s u.email),
   ("role", JVal.s u.role), ("isMaster", JVal.b u.isMaster),
   ("firstName", joptS u.firstName), ("lastName", joptS u.lastName),
   ("avatar", joptS u.avatar), ("bio", joptS (User.bio u)),
   ("xp", JVal.n u.xp), ("level", JVal.n u.level),
   ("createdAt", JVal.n u.createdAt)]

/-- Model of `const { password, ...userResponse } = user`
(routes.ts:116 and routes.ts:151): rest-destructuring keeps every
property except `password`. -/
def stripPassword (es : List (String × JVal)) : List (String × JVal) :=
  es.filter (fun e => !(e.1 == "password"))

/-- Model of the POST /api/auth/register handler (routes.ts:90-128):
validate (with `role || "student"` substituted), reject a taken email
with 409, hash the password, create the user and answer 201 with the
password-stripped user object; a `ZodError` gives 400 and any storage
failure 500.  The result is (status, user object of the response if
any, resulting database). -/
def registerHandler (ext : Ext) (db : DB) (now : Nat) (body : UserInput) :
    Nat × Option (List (String × JVal)) × DB :=
  match parseInsertUser ext { body with role := some (registerRole body.role) } with
  | none => (400, none, db)
  | some data =>
    match getUserByEmailOp db data.email with
    | Except.error _ => (500, none, db)
    | Except.ok (some _) => (409, none, db)
    | Except.ok none =>
      match createUserOp ext db now { data with password := ext.hash data.password } with
      | Except.error _ => (500, none, db)
      | Except.ok (user, db2) => (201, some (stripPassword (userEntries user)), db2)

/-- Model of the POST /api/auth/login handler (routes.ts:130-161):
400 when email or password is falsy, 401 when no user holds the email
or `bcrypt.compare` fails, otherwise 200 with the password-stripped
user object. -/
def loginHandler (ext : Ext) (db : DB) (email password : Option String) :
    Nat × Option (List (String × JVal)) :=
  if !(truthyStr email) || !(truthyStr password) then (400, none)
  else
    match getUserByEmailOp db (email.getD "") with
    | Except.error _ => (500, none)
    | Except.ok none => (401, none)
    | Except.ok (some user) =>
      if ext.compare (password.getD "") user.password then
        (200, some (stripPassword (userEntries user)))
      else (401, none)

/-- Model of the GET /api/users/:id handler (routes.ts:57-65). -/
def getUserHandler (db : DB) (id : Nat) : Nat × Option User :=
  match getUserByIdOp db id with
  | Except.error _ => (500, none)
  | Except.ok none => (404, none)
  | Except.ok (some u) => (200, some u)

/-- Model of the GET /api/users handler (routes.ts:67-74). -/
def getUsersHandler (db : DB) : Nat × Option (List User) :=
  match getUsersOp db with
  | Except.error _ => (500, none)
  | Except.ok us => (200, some us)

/-- Model of the POST /api/users handler (routes.ts:76-87): 201 with
the created row (password included), 400 on a `ZodError`, 500 on any
other failure. -/
def createUserHandler (ext : Ext) (db : DB) (now : Nat) (body : UserInput) :
    Nat × Option User × DB :=
  match parseInsertUser ext body with
  | none => (400, none, db)
  | some data =>
    match createUserOp ext db now data with
    | Except.error _ => (500, none, db)
    | Except.ok (user, db2) => (201, some user, db2)

/-- Model of the GET /api/courses/:id handler (routes.ts:173-181). -/
def getCourseHandler (db : DB) (id : Nat) : Nat × Option Course :=
  match getCourseByIdOp db id with
  | Except.error _ => (500, none)
  | Except.ok none => (404, none)
  | Except.ok (some c) => (200, some c)

/-- Model of the POST /api/courses handler (routes.ts:183-194). -/
def createCourseHandler (db : DB) (now : Nat) (body : CourseInput) :
    Nat × Option Course × DB :=
  match parseInsertCourse body with
  | none => (400, none, db)
  | some data =>
    match createCourseOp db now data with
    | Except.error _ => (500, none, db)
    | Except.ok (course, db2) => (201, some course, db2)

/-- Model of the PATCH /api/courses/:id handler (routes.ts:196-205):
no not-found branch exists, so a missing id surfaces as the generic
500. -/
def patchCourseHandler (db : DB) (id : Nat) (u : CourseUpdate) :
    Nat × Option Course × DB :=
  match updateCourseOp db id u with
  | Except.error _ => (500, none, db)
  | Except.ok (course, db2) => (200, some course, db2)

/-- Model of the DELETE /api/courses/:id handler (routes.ts:207-214):
200 with a message body on success, 500 otherwise. -/
def deleteCourseHandler (db : DB) (id : Nat) : Nat × Option String × DB :=
  match deleteCourseOp db id with
  | Except.error _ => (500, none, db)
  | Except.ok db2 => (200, some "Course deleted successfully", db2)

/-- Model of the GET /api/classrooms/slug/:slug handler
(routes.ts:226-234). -/
def getClassroomBySlugHandler (db : DB) (slug : String) :
    Nat × Option Classroom :=
  match getClassroomBySlugOp db slug with
  | Except.error _ => (500, none)
  | Except.ok none => (404, none)
  | Except.ok (some c) => (200, some c)

/-- The part of the health-check body fixed by the handler (the
timestamp, uptime and memory numbers vary per call and are passed in
as observations). -/
structure HealthBody where
  status : String
  timestamp : Nat
  environment : String
  version : String
  uptime : Nat
deriving DecidableEq

/-- Model of the GET /health handler (routes.ts:29-43): it reads only
the static config and the process clock, never the database, and
always answers 200 with `status: "healthy"`. -/
def healthHandler (environment version : String) (now uptime : Nat)
    (_db : DB) : Nat × HealthBody :=
  (200, { status := "healthy", timestamp := now,
          environment := environment, version := version,
          uptime := uptime })

/-- Model of the GET /ready handler (routes.ts:46-54): 200 when the
lightweight `storage.getUsers()` read succeeds, 503 when it throws. -/
def readyHandler (db : DB) : Nat × String :=
  match getUsersOp db with
  | Except.ok _ => (200, "ready")
  | Except.error _ => (503, "not ready")

/-- Model of the PATCH /api/staff-requests/:id/status handler
(routes.ts:510-519). -/
def patchStaffRequestHandler (db : DB) (now : Nat) (id : Nat)
    (u : StaffRequestUpdate) : Nat × Option StaffRequest × DB :=
  match updateStaffRequestOp db now id u with
  | Except.error _ => (500, none, db)
  | Except.ok (r, db2) => (200, some r, db2)

/-- Model of the PATCH /api/master-role-requests/:id/status handler
(routes.ts:576-585). -/
def patchMasterRoleRequestHandler (db : DB) (now : Nat) (id : Nat)
    (u : MasterRoleRequestUpdate) : Nat × Option MasterRoleRequest × DB :=
  match updateMasterRoleRequestOp db now id u with
  | Except.error _ => (500, none, db)
  | Except.ok (r, db2) => (200, some r, db2)

/-- Model of the PATCH /api/resignation-requests/:id/status handler
(routes.ts:752-761). -/
def patchResignationRequestHandler (db : DB) (now : Nat) (id : Nat)
    (u : ResignationRequestUpdate) : Nat × Option ResignationRequest × DB :=
  match updateResignationRequestOp db now id u with
  | Except.error _ => (500, none, db)
  | Except.ok (r, db2) => (200, some r, db2)

/-- A concrete instantiation of the external-library interface, used by
the witnesses: a deterministic, collision-free stand-in satisfying the
salted-hash contract the theorems assume of bcrypt (the hash carries a
recognisable prefix and verification succeeds exactly for the hashed
plaintext). -/
def extModel : Ext where
  hash p := "$2b$10$" ++ p
  compare p h := h == "$2b$10$" ++ p
  emailValid e := e.data.contains '@'

/-- Verification against an `extModel` hash fails for every plaintext
other than the hashed one. -/
theorem extModel_compare_ne (p q : String) (h : q ≠ p) :
    extModel.compare q (extModel.hash p) = false := by
  have : ¬ ("$2b$10$" ++ p = "$2b$10$" ++ q) := by
    intro he
    apply h
    apply Eq.symm
    apply String.ext
    have := congrArg String.data he
    simp only [String.data_append] at this
    exact List.append_cancel_left this
  simp [extModel, this]

/-- A first match exists whenever some list member satisfies the
predicate. -/
theorem exists_find?_of_mem {α} {p : α → Bool} {l : List α} {a : α}
    (ha : a ∈ l) (hp : p a = true) : ∃ b, l.find? p = some b := by
  have : l.find? p ≠ none := by
    intro hn
    exact (List.find?_eq_none.mp hn) a ha hp
  cases h : l.find? p with
  | none => exact absurd h this
  | some b => exact ⟨b, rfl⟩

/-- Rest-destructuring away `password` leaves no `password` key to look
up. -/
theorem lookup_stripPassword (es : List (String × JVal)) :
    (stripPassword es).lookup "password" = none := by
  induction es with
  | nil => rfl
  | cons e es ih =>
    by_cases h : e.1 == "password"
    · simpa [stripPassword, List.filter_cons, h] using ih
    · have h3 : (e.1 == "password") = false := by simpa using h
      have h2 : ("password" == e.1) = false := by
        rw [beq_eq_false_iff_ne] at h3 ⊢
        exact fun hx => h3 hx.symm
      simpa [stripPassword, List.filter_cons, h3, List.lookup, h2]
        using ih

/-- The empty store with the connection up. -/
def dbEmpty : DB :=
  { up := true, users := [], courses := [], classrooms := [],
    staffRequests := [], masterRoleRequests := [],
    resignationRequests := [], nextUserId := 1, nextCourseId := 1,
    nextClassroomId := 1 }

/-- A minimal classroom row with a given id and custom slug. -/
def roomFixture (i : Nat) (slug : String) : Classroom :=
  { id := i, title := "Academy", subject := "music", level := "beginner",
    description := none, masterId := none, maxStudents := 50,
    isActive := true, academyName := none, about := none,
    instruments := [], curriculum := none, heroImage := none,
    logoImage := none, aboutImage := none, primaryColor := "#3B82F6",
    secondaryColor := "#10B981", contactEmail := none,
    contactPhone := none, website := none, socialLinks := none,
    features := [], testimonials := none, pricing := none,
    schedule := none, address := none, isPublic := true,
    customSlug := some slug, createdAt := 0 }

/-- A store holding two classrooms with distinct custom slugs. -/
def dbTwoRooms : DB :=
  { dbEmpty with
    classrooms := [roomFixture 1 "rock-academy", roomFixture 2 "jazz-academy"],
    nextClassroomId := 3 }

/-- C1: the claim says a GET /api/classrooms/slug/:slug request returns
HTTP 200 with the classroom whose customSlug equals the requested
slug.  On the code this fails: routes.ts:228 calls
storage.getClassroomBySlug, the storage module exports no such
function, so the call throws and the catch answers 500 for every
request — in particular for a store holding two classrooms with
distinct slugs "rock-academy" and "jazz-academy". -/
theorem c1_slug_lookup_always_500 :
    (∀ db slug, (getClassroomBySlugHandler db slug).1 = 500) ∧
    getClassroomBySlugHandler dbTwoRooms "rock-academy" = (500, none) ∧
    getClassroomBySlugHandler dbTwoRooms "jazz-academy" = (500, none) := by
  have habsent : ¬ ("getClassroomBySlug" ∈ storageExports) := by decide
  refine ⟨?_, ?_, ?_⟩
  · intro db slug
    simp [getClassroomBySlugHandler, getClassroomBySlugOp, habsent]
  · simp [getClassroomBySlugHandler, getClassroomBySlugOp, habsent]
  · simp [getClassroomBySlugHandler, getClassroomBySlugOp, habsent]

/-- C2: the startup parser applies each declared default to an unset
variable (for `DATABASE_URL`, which declares no default, an unset
variable stays unset), and aborts startup whenever any declared
variable holds a value its declared check rejects (under `envSchema`
only `NODE_ENV`, an enum, has rejectable values; every other variable
is a plain string). -/
theorem c2_env_defaults_and_abort :
    (∀ i e, parseEnv i = Except.ok e →
      (i.NODE_ENV = none → e.NODE_ENV = "development") ∧
      (i.PORT = none → e.PORT = "5000") ∧
      (i.DATABASE_URL = none → e.DATABASE_URL = none) ∧
      (i.SESSION_SECRET = none →
        e.SESSION_SECRET = "fallback-secret-key-change-in-production") ∧
      (i.CORS_ORIGIN = none → e.CORS_ORIGIN = "*") ∧
      (i.APP_NAME = none → e.APP_NAME = "HarmonyLearn") ∧
      (i.APP_VERSION = none → e.APP_VERSION = "1.0.0") ∧
      (i.DATABASE_SSL = none → e.DATABASE_SSL = "false") ∧
      (i.DATABASE_POOL_SIZE = none → e.DATABASE_POOL_SIZE = "10") ∧
      (i.REQUEST_TIMEOUT = none → e.REQUEST_TIMEOUT = "30000") ∧
      (i.BODY_LIMIT = none → e.BODY_LIMIT = "10mb")) ∧
    (∀ i name v, name ∈ envVarNames → envGet i name = some v →
      envVarValid name v = false → parseEnv i = Except.error ()) := by
  constructor
  · intro i e h
    unfold parseEnv at h
    split at h
    · injection h with h
      subst h
      refine ⟨fun hx => ?_, fun hx => ?_, fun hx => ?_, fun hx => ?_,
        fun hx => ?_, fun hx => ?_, fun hx => ?_, fun hx => ?_,
        fun hx => ?_, fun hx => ?_, fun hx => ?_⟩ <;> simp [hx]
    · exact Except.noConfusion h
  · intro i name v hmem hget hvalid
    simp only [envVarNames, List.mem_cons, List.not_mem_nil, or_false] at hmem
    rcases hmem with rfl | rfl | rfl | rfl | rfl | rfl | rfl | rfl | rfl | rfl | rfl <;>
      simp only [envVarValid, envGet] at hvalid hget
    · have hv2 : v ∉ nodeEnvValues := by simpa using hvalid
      unfold parseEnv
      rw [hget]
      simp [hv2]
    all_goals simp_all [envVarValid]

/-- An environment with every declared variable unset. -/
def envAllUnset : EnvInput :=
  { NODE_ENV := none, PORT := none, DATABASE_URL := none,
    SESSION_SECRET := none, CORS_ORIGIN := none, APP_NAME := none,
    APP_VERSION := none, DATABASE_SSL := none, DATABASE_POOL_SIZE := none,
    REQUEST_TIMEOUT := none, BODY_LIMIT := none }

/-- An environment whose `NODE_ENV` holds a value outside the enum. -/
def envBadNode : EnvInput := { envAllUnset with NODE_ENV := some "staging" }

/-- The parsed environment produced from an all-unset input. -/
def envDefaults : Env :=
  { NODE_ENV := "development", PORT := "5000", DATABASE_URL := none,
    SESSION_SECRET := "fallback-secret-key-change-in-production",
    CORS_ORIGIN := "*", APP_NAME := "HarmonyLearn", APP_VERSION := "1.0.0",
    DATABASE_SSL := "false", DATABASE_POOL_SIZE := "10",
    REQUEST_TIMEOUT := "30000", BODY_LIMIT := "10mb" }

/-- Witness for C2: `NODE_ENV=staging` aborts startup, and an all-unset
environment parses to the declared defaults. -/
theorem c2_env_witness :
    parseEnv envBadNode = Except.error () ∧
    envDefaults.NODE_ENV = "development" ∧ envDefaults.PORT = "5000" := by
  refine ⟨?_, ?_, ?_⟩
  · exact c2_env_defaults_and_abort.2 envBadNode "NODE_ENV" "staging"
      (by decide) rfl (by decide)
  · exact (c2_env_defaults_and_abort.1 envAllUnset envDefaults rfl).1 rfl
  · exact ((c2_env_defaults_and_abort.1 envAllUnset envDefaults rfl).2).1 rfl

/-- C3: for a stored pending staff, master-role or resignation request,
an update that sets the status to "approved" or "rejected" and names a
reviewer (a stored user, so a nonzero id) stamps `reviewedAt` with the
review time on the updated record, alongside the status transition. -/
theorem c3_review_transition_stamps_timestamp :
    (∀ db now id u r out db2 s w,
      db.staffRequests.find? (fun x => x.id == id) = some r →
      r.status = "pending" →
      u.status = some s → (s = "approved" ∨ s = "rejected") →
      u.reviewedBy = some w → w ≠ 0 →
      updateStaffRequestOp db now id u = Except.ok (out, db2) →
      out.status = s ∧ out.reviewedAt = some now) ∧
    (∀ db now id u r out db2 s w,
      db.masterRoleRequests.find? (fun x => x.id == id) = some r →
      r.status = "pending" →
      u.status = some s → (s = "approved" ∨ s = "rejected") →
      u.reviewedBy = some w → w ≠ 0 →
      updateMasterRoleRequestOp db now id u = Except.ok (out, db2) →
      out.status = s ∧ out.reviewedAt = some now) ∧
    (∀ db now id u r out db2 s w,
      db.resignationRequests.find? (fun x => x.id == id) = some r →
      r.status = "pending" →
      u.status = some s → (s = "approved" ∨ s = "rejected") →
      u.reviewedBy = some w → w ≠ 0 →
      updateResignationRequestOp db now id u = Except.ok (out, db2) →
      out.status = s ∧ out.reviewedAt = some now) := by
  refine ⟨?_, ?_, ?_⟩
  · intro db now id u r out db2 s w hfind hpend hs hsv hw hw0 hop
    unfold updateStaffRequestOp at hop
    split at hop
    · rw [hfind] at hop
      injection hop with hop
      have h1 : out = applyStaffRequestUpdate now u r := (Prod.mk.injEq ..).mp hop |>.1.symm
      subst h1
      have hts : truthyStr u.status = true := by
        rw [hs]
        rcases hsv with rfl | rfl <;> decide
      have htw : truthyNat u.reviewedBy = true := by
        rw [hw]
        simpa [truthyNat] using hw0
      constructor
      · simp [applyStaffRequestUpdate, hs]
      · simp [applyStaffRequestUpdate, hts, htw]
    · exact Except.noConfusion hop
  · intro db now id u r out db2 s w hfind hpend hs hsv hw hw0 hop
    unfold updateMasterRoleRequestOp at hop
    split at hop
    · rw [hfind] at hop
      injection hop with hop
      have h1 : out = applyMasterRoleRequestUpdate now u r := (Prod.mk.injEq ..).mp hop |>.1.symm
      subst h1
      have htw : truthyNat u.reviewedBy = true := by
        rw [hw]
        simpa [truthyNat] using hw0
      constructor
      · simp [applyMasterRoleRequestUpdate, hs]
      · simp [applyMasterRoleRequestUpdate, htw]
    · exact Except.noConfusion hop
  · intro db now id u r out db2 s w hfind hpend hs hsv hw hw0 hop
    unfold updateResignationRequestOp at hop
    split at hop
    · rw [hfind] at hop
      injection hop with hop
      have h1 : out = applyResignationRequestUpdate now u r := (Prod.mk.injEq ..).mp hop |>.1.symm
      subst h1
      have htw : truthyNat u.reviewedBy = true := by
        rw [hw]
        simpa [truthyNat] using hw0
      constructor
      · simp [applyResignationRequestUpdate, hs]
      · simp [applyResignationRequestUpdate, htw]
    · exact Except.noConfusion hop

/-- C4: when a user with the submitted email already exists, a
POST /api/auth/register request with a payload that passes validation
is rejected with 409 and leaves the store unchanged (in particular no
user row is created). -/
theorem c4_duplicate_email_register_conflict :
    ∀ ext db now body data u,
      db.up = true →
      parseInsertUser ext { body with role := some (registerRole body.role) } = some data →
      u ∈ db.users → u.email = data.email →
      (registerHandler ext db now body).1 = 409 ∧
      (registerHandler ext db now body).2.2 = db := by
  intro ext db now body data u hup hparse hmem hemail
  obtain ⟨v, hv⟩ := exists_find?_of_mem
    (p := fun x => x.email == data.email) hmem (by simp [hemail])
  have hop : getUserByEmailOp db data.email = Except.ok (some v) := by
    simp [getUserByEmailOp, hup, hv]
  constructor <;> simp [registerHandler, hparse, hop]

/-- A stored user row used by the witnesses. -/
def userFixture : User :=
  { id := 1, username := "alice", password := "$2b$10$hunter2",
    email := "alice@example.com", role := "student", isMaster := false,
    firstName := none, lastName := none, avatar := none, bio := none,
    xp := 0, level := 1, createdAt := 0 }

/-- A store holding the single user `userFixture`. -/
def dbOneUser : DB := { dbEmpty with users := [userFixture], nextUserId := 2 }

/-- A registration body re-using the stored user's email. -/
def regBodyDup : UserInput :=
  { username := some "bob", password := some "hunter2",
    email := some "alice@example.com", role := none, isMaster := none,
    firstName := none, lastName := none, avatar := none, bio := none,
    xp := none, level := none }

/-- The validated form of `regBodyDup` with the role default applied. -/
def regParsedDup : InsertUser :=
  { username := "bob", password := "hunter2",
    email := "alice@example.com", role := "student", isMaster := false,
    firstName := none, lastName := none, avatar := none, bio := none,
    xp := 0, level := 1 }

/-- Witness for C4 at a concrete store and payload. -/
theorem c4_witness :
    (registerHandler extModel dbOneUser 5 regBodyDup).1 = 409 ∧
    (registerHandler extModel dbOneUser 5 regBodyDup).2.2 = dbOneUser :=
  c4_duplicate_email_register_conflict extModel dbOneUser 5 regBodyDup
    regParsedDup userFixture rfl (by decide) (by decide) rfl

/-- A pending staff request fixture. -/
def staffReqFixture : StaffRequest :=
  { id := 1, mentorId := 2, classroomId := 3, message := none,
    status := "pending", reviewedBy := none, adminNotes := none,
    reviewedAt := none, createdAt := 0 }

/-- A pending master-role request fixture. -/
def masterReqFixture : MasterRoleRequest :=
  { id := 1, mentorId := 2, experience := "5 years",
    qualifications := "conservatory degree", motivation := "teaching",
    portfolio := none, status := "pending", reviewedBy := none,
    adminNotes := none, approvedAt := none, rejectedAt := none,
    reviewedAt := none, createdAt := 0 }

/-- A pending resignation request fixture. -/
def resignReqFixture : ResignationRequest :=
  { id := 1, mentorId := 2, classroomId := 3, reason := "relocating",
    lastWorkDate := 9, status := "pending", reviewedBy := none,
    masterNotes := none, reviewedAt := none, createdAt := 0 }

/-- A store holding one pending request of each kind. -/
def dbRequests : DB :=
  { dbEmpty with
    staffRequests := [staffReqFixture],
    masterRoleRequests := [masterReqFixture],
    resignationRequests := [resignReqFixture] }

/-- The approval update sent by reviewer 7. -/
def staffUpd : StaffRequestUpdate :=
  { status := some "approved", reviewedBy := some 7, adminNotes := none }

/-- The rejection update sent by reviewer 7. -/
def masterUpd : MasterRoleRequestUpdate :=
  { status := some "rejected", reviewedBy := some 7, adminNotes := none }

/-- The approval update sent by reviewer 7. -/
def resignUpd : ResignationRequestUpdate :=
  { status := some "approved", reviewedBy := some 7, masterNotes := none }

/-- The staff request after the approval update at time 42. -/
def staffOut : StaffRequest :=
  { staffReqFixture with
    status := "approved", reviewedBy := some 7, reviewedAt := some 42 }

/-- The master-role request after the rejection update at time 42. -/
def masterOut : MasterRoleRequest :=
  { masterReqFixture with
    status := "rejected", reviewedBy := some 7, rejectedAt := some 42,
    reviewedAt := some 42 }

/-- The resignation request after the approval update at time 42. -/
def resignOut : ResignationRequest :=
  { resignReqFixture with
    status := "approved", reviewedBy := some 7, reviewedAt := some 42 }

/-- Witness for C3 at a concrete store, one update of each kind. -/
theorem c3_witness :
    staffOut.status = "approved" ∧ staffOut.reviewedAt = some 42 ∧
    masterOut.status = "rejected" ∧ masterOut.reviewedAt = some 42 ∧
    resignOut.status = "approved" ∧ resignOut.reviewedAt = some 42 := by
  have h1 := c3_review_transition_stamps_timestamp.1 dbRequests 42 1 staffUpd
    staffReqFixture staffOut { dbRequests with staffRequests := [staffOut] }
    "approved" 7 rfl rfl rfl (Or.inl rfl) rfl (by decide) rfl
  have h2 := c3_review_transition_stamps_timestamp.2.1 dbRequests 42 1 masterUpd
    masterReqFixture masterOut { dbRequests with masterRoleRequests := [masterOut] }
    "rejected" 7 rfl rfl rfl (Or.inr rfl) rfl (by decide) rfl
  have h3 := c3_review_transition_stamps_timestamp.2.2 dbRequests 42 1 resignUpd
    resignReqFixture resignOut { dbRequests with resignationRequests := [resignOut] }
    "approved" 7 rfl rfl rfl (Or.inl rfl) rfl (by decide) rfl
  exact ⟨h1.1, h1.2, h2.1, h2.2, h3.1, h3.2⟩

/-- A registration body carrying the empty-string password, which
`insertUserSchema` (a plain `z.string()`) accepts. -/
def regBodyEmptyPwd : UserInput :=
  { username := some "carol", password := some "",
    email := some "carol@example.com", role := none, isMaster := none,
    firstName := none, lastName := none, avatar := none, bio := none,
    xp := none, level := none }

/-- C5 counterexample: the empty string is a valid registration
password (the registration handler answers 201 for it), yet a login
with that correct password answers 400, not success — routes.ts:134
rejects a falsy password before any verification takes place.  So the
claim "login with p returns success" fails at p = "". -/
theorem c5_counterexample_empty_password :
    (registerHandler extModel dbEmpty 0 regBodyEmptyPwd).1 = 201 ∧
    (loginHandler extModel (registerHandler extModel dbEmpty 0 regBodyEmptyPwd).2.2
        (some "carol@example.com") (some "")).1 = 400 ∧
    ¬ (loginHandler extModel (registerHandler extModel dbEmpty 0 regBodyEmptyPwd).2.2
        (some "carol@example.com") (some "")).1 = 200 :=
  ⟨rfl, rfl, by decide⟩

/-- C5 (amended): for every valid registration payload whose plaintext
password and email are nonempty, under the contract assumed of the
salted hash (verification succeeds for the hashed plaintext and for no
other string, and the hash differs from the plaintext), the stored
password is the hash and so differs from the plaintext, login with the
correct plaintext returns success, a login with any other nonempty
plaintext returns 401 invalid credentials, and a login with the empty
string is rejected with 400 before verification. -/
theorem c5_register_login_roundtrip :
    ∀ ext db now body data,
      db.up = true →
      parseInsertUser ext { body with role := some (registerRole body.role) } = some data →
      data.password ≠ "" → data.email ≠ "" →
      ext.emailValid data.email = true →
      db.users.any (fun u => u.username == data.username || u.email == data.email) = false →
      ext.compare data.password (ext.hash data.password) = true →
      (∀ q, q ≠ data.password → ext.compare q (ext.hash data.password) = false) →
      ext.hash data.password ≠ data.password →
      ∃ user db2,
        registerHandler ext db now body =
          (201, some (stripPassword (userEntries user)), db2) ∧
        user.password = ext.hash data.password ∧
        user.password ≠ data.password ∧
        (loginHandler ext db2 (some data.email) (some data.password)).1 = 200 ∧
        (∀ q, q ≠ data.password → q ≠ "" →
          (loginHandler ext db2 (some data.email) (some q)).1 = 401) ∧
        (loginHandler ext db2 (some data.email) (some "")).1 = 400 := by
  intro ext db now body data hup hparse hpne hene hev huniq hcmp hcmpne hhne
  have hfind : db.users.find? (fun x => x.email == data.email) = none := by
    rw [List.find?_eq_none]
    intro x hx
    have hall := (List.any_eq_false.mp huniq) x hx
    simp only [Bool.or_eq_true, not_or] at hall
    simpa using hall.2
  have hgbe : getUserByEmailOp db data.email = Except.ok none := by
    simp [getUserByEmailOp, hup, hfind]
  have hreg : registerHandler ext db now body =
      (201,
       some (stripPassword (userEntries
         (mkUser db.nextUserId now { data with password := ext.hash data.password }))),
       { db with
         users := mkUser db.nextUserId now { data with password := ext.hash data.password } :: db.users,
         nextUserId := db.nextUserId + 1 }) := by
    simp [registerHandler, hparse, hgbe, createUserOp, hup, hev, huniq]
  refine ⟨mkUser db.nextUserId now { data with password := ext.hash data.password },
    { db with
      users := mkUser db.nextUserId now { data with password := ext.hash data.password } :: db.users,
      nextUserId := db.nextUserId + 1 },
    hreg, by simp [mkUser], by simp [mkUser, hhne], ?_, ?_, ?_⟩
  all_goals
    have hbe : (data.email == "") = false := beq_eq_false_iff_ne.mpr hene
    have hfind2 :
        (mkUser db.nextUserId now { data with password := ext.hash data.password } :: db.users).find?
          (fun x => x.email == data.email) =
        some (mkUser db.nextUserId now { data with password := ext.hash data.password }) :=
      List.find?_cons_of_pos _ (by simp [mkUser])
  · have hbp : (data.password == "") = false := beq_eq_false_iff_ne.mpr hpne
    simp [loginHandler, truthyStr, hbe, hbp, getUserByEmailOp, hup, hfind2, mkUser, hcmp]
  · intro q hq hqne
    have hbq : (q == "") = false := beq_eq_false_iff_ne.mpr hqne
    have hc := hcmpne q hq
    simp [loginHandler, truthyStr, hbe, hbq, getUserByEmailOp, hup, hfind2, mkUser, hc]
  · simp [loginHandler, truthyStr]

/-- A valid registration body with the nonempty password "hunter2". -/
def regBodyGood : UserInput :=
  { username := some "dave", password := some "hunter2",
    email := some "dave@example.com", role := none, isMaster := none,
    firstName := none, lastName := none, avatar := none, bio := none,
    xp := none, level := none }

/-- The validated form of `regBodyGood` with defaults applied. -/
def regParsedGood : InsertUser :=
  { username := "dave", password := "hunter2", email := "dave@example.com",
    role := "student", isMaster := false, firstName := none,
    lastName := none, avatar := none, bio := none, xp := 0, level := 1 }

/-- Witness for the amended C5 at a concrete payload and the concrete
hash model. -/
theorem c5_witness :
    ∃ user db2,
      registerHandler extModel dbEmpty 3 regBodyGood =
        (201, some (stripPassword (userEntries user)), db2) ∧
      user.password = extModel.hash "hunter2" ∧
      user.password ≠ "hunter2" ∧
      (loginHandler extModel db2 (some "dave@example.com") (some "hunter2")).1 = 200 ∧
      (∀ q, q ≠ "hunter2" → q ≠ "" →
        (loginHandler extModel db2 (some "dave@example.com") (some q)).1 = 401) ∧
      (loginHandler extModel db2 (some "dave@example.com") (some "")).1 = 400 :=
  c5_register_login_roundtrip extModel dbEmpty 3 regBodyGood regParsedGood rfl
    rfl (by decide) (by decide) rfl rfl (by decide)
    (fun q hq => extModel_compare_ne "hunter2" q hq) (by decide)

/-- C6: for an entity created through createUser, createCourse or
createClassroom from a payload that passes its insert schema, a
subsequent get-by-id with the returned id yields exactly the created
record, every submitted field of which holds the submitted value and
every omitted defaulted field its declared default (omitted optional
fields without a declared default are stored unset). -/
theorem c6_create_then_get_roundtrip :
    (∀ ext db now i data,
      db.up = true →
      parseInsertUser ext i = some data →
      (∀ u ∈ db.users, u.id ≠ db.nextUserId) →
      db.users.any (fun u => u.username == data.username || u.email == data.email) = false →
      ∃ row db2,
        createUserOp ext db now data = Except.ok (row, db2) ∧
        getUserByIdOp db2 row.id = Except.ok (some row) ∧
        i.username = some row.username ∧
        i.password = some row.password ∧
        i.email = some row.email ∧
        row.role = i.role.getD "student" ∧
        row.isMaster = i.isMaster.getD false ∧
        row.firstName = i.firstName ∧
        row.lastName = i.lastName ∧
        row.avatar = i.avatar ∧
        User.bio row = UserInput.bio i ∧
        row.xp = i.xp.getD 0 ∧
        row.level = i.level.getD 1) ∧
    (∀ db now i data,
      db.up = true →
      parseInsertCourse i = some data →
      (∀ c ∈ db.courses, c.id ≠ db.nextCourseId) →
      ∃ row db2,
        createCourseOp db now data = Except.ok (row, db2) ∧
        getCourseByIdOp db2 row.id = Except.ok (some row) ∧
        i.title = some row.title ∧
        row.description = i.description ∧
        i.category = some row.category ∧
        i.level = some row.level ∧
        row.price = i.price ∧
        row.duration = i.duration ∧
        row.mentorId = i.mentorId ∧
        row.imageUrl = i.imageUrl ∧
        row.isActive = i.isActive.getD true ∧
        row.status = i.status.getD "draft" ∧
        row.approvedBy = i.approvedBy ∧
        row.adminNotes = i.adminNotes ∧
        row.syllabus = i.syllabus ∧
        row.prerequisites = i.prerequisites.getD [] ∧
        row.learningObjectives = i.learningObjectives.getD [] ∧
        row.targetAudience = i.targetAudience ∧
        row.difficulty = i.difficulty.getD 1 ∧
        row.estimatedWeeks = i.estimatedWeeks ∧
        row.maxStudents = i.maxStudents.getD 100 ∧
        row.currentEnrollments = i.currentEnrollments.getD 0 ∧
        row.tags = i.tags.getD []) ∧
    (∀ db now i data,
      db.up = true →
      parseInsertClassroom i = some data →
      (∀ c ∈ db.classrooms, c.id ≠ db.nextClassroomId) →
      ∃ row db2,
        createClassroomOp db now data = Except.ok (row, db2) ∧
        getClassroomByIdOp db2 row.id = Except.ok (some row) ∧
        i.title = some row.title ∧
        i.subject = some row.subject ∧
        i.level = some row.level ∧
        row.description = i.description ∧
        row.masterId = i.masterId ∧
        row.maxStudents = i.maxStudents.getD 50 ∧
        row.isActive = i.isActive.getD true ∧
        row.academyName = i.academyName ∧
        row.about = i.about ∧
        row.instruments = i.instruments.getD [] ∧
        row.curriculum = i.curriculum ∧
        row.heroImage = i.heroImage ∧
        row.logoImage = i.logoImage ∧
        row.aboutImage = i.aboutImage ∧
        row.primaryColor = i.primaryColor.getD "#3B82F6" ∧
        row.secondaryColor = i.secondaryColor.getD "#10B981" ∧
        row.contactEmail = i.contactEmail ∧
        row.contactPhone = i.contactPhone ∧
        row.website = i.website ∧
        row.socialLinks = i.socialLinks ∧
        row.features = i.features.getD [] ∧
        row.testimonials = i.testimonials ∧
        row.pricing = i.pricing ∧
        row.schedule = i.schedule ∧
        row.address = i.address ∧
        row.isPublic = i.isPublic.getD true ∧
        row.customSlug = i.customSlug) := by
  refine ⟨?_, ?_, ?_⟩
  · intro ext db now i data hup hparse hfresh huniq
    rcases h1 : i.username with _ | un <;> rcases h2 : i.password with _ | pw <;>
      rcases h3 : i.email with _ | eml <;>
      simp only [parseInsertUser, h1, h2, h3] at hparse <;>
      try exact Option.noConfusion hparse
    by_cases hev : ext.emailValid eml = true
    · rw [if_pos hev] at hparse
      injection hparse with hparse
      have hev2 : ext.emailValid data.email = true := by
        rw [← hparse]
        exact hev
      refine ⟨mkUser db.nextUserId now data,
        { db with users := mkUser db.nextUserId now data :: db.users,
                  nextUserId := db.nextUserId + 1 }, ?_, ?_, ?_, ?_, ?_, ?_, ?_,
        ?_, ?_, ?_, ?_, ?_, ?_⟩
      · simp [createUserOp, hup, hev2, huniq]
      · simp [getUserByIdOp, hup]
      all_goals simp [mkUser, ← hparse]
    · rw [if_neg hev] at hparse
      exact Option.noConfusion hparse
  · intro db now i data hup hparse hfresh
    rcases h1 : i.title with _ | t <;> rcases h2 : i.category with _ | c <;>
      rcases h3 : i.level with _ | l <;>
      simp only [parseInsertCourse, h1, h2, h3] at hparse <;>
      try exact Option.noConfusion hparse
    injection hparse with hparse
    refine ⟨mkCourse db.nextCourseId now data,
      { db with courses := mkCourse db.nextCourseId now data :: db.courses,
                nextCourseId := db.nextCourseId + 1 }, ?_, ?_, ?_, ?_, ?_, ?_,
      ?_, ?_, ?_, ?_, ?_, ?_, ?_, ?_, ?_, ?_, ?_, ?_, ?_, ?_, ?_, ?_, ?_⟩
    · simp [createCourseOp, hup]
    · simp [getCourseByIdOp, hup]
    all_goals simp [mkCourse, ← hparse]
  · intro db now i data hup hparse hfresh
    rcases h1 : i.title with _ | t <;> rcases h2 : i.subject with _ | sj <;>
      rcases h3 : i.level with _ | l <;>
      simp only [parseInsertClassroom, h1, h2, h3] at hparse <;>
      try exact Option.noConfusion hparse
    injection hparse with hparse
    refine ⟨mkClassroom db.nextClassroomId now data,
      { db with classrooms := mkClassroom db.nextClassroomId now data :: db.classrooms,
                nextClassroomId := db.nextClassroomId + 1 }, ?_, ?_, ?_, ?_, ?_,
      ?_, ?_, ?_, ?_, ?_, ?_, ?_, ?_, ?_, ?_, ?_, ?_, ?_, ?_, ?_, ?_, ?_, ?_,
      ?_, ?_, ?_, ?_, ?_, ?_⟩
    · simp [createClassroomOp, hup]
    · simp [getClassroomByIdOp, hup]
    all_goals simp [mkClassroom, ← hparse]

/-- A course payload with some optional fields submitted and the rest
omitted. -/
def courseInputW : CourseInput :=
  { title := some "Guitar 101", description := some "Strumming basics",
    category := some "guitar", level := some "beginner", price := none,
    duration := none, mentorId := none, imageUrl := none,
    isActive := none, status := none, approvedBy := none,
    adminNotes := none, syllabus := none, prerequisites := none,
    learningObjectives := none, targetAudience := none,
    difficulty := none, estimatedWeeks := none, maxStudents := none,
    currentEnrollments := none, tags := some ["guitar", "beginner"] }

/-- The validated form of `courseInputW` with defaults applied. -/
def courseParsedW : InsertCourse :=
  { title := "Guitar 101", description := some "Strumming basics",
    category := "guitar", level := "beginner", price := none,
    duration := none, mentorId := none, imageUrl := none,
    isActive := true, status := "draft", approvedBy := none,
    adminNotes := none, syllabus := none, prerequisites := [],
    learningObjectives := [], targetAudience := none, difficulty := 1,
    estimatedWeeks := none, maxStudents := 100, currentEnrollments := 0,
    tags := ["guitar", "beginner"] }

/-- A classroom payload with some optional fields submitted and the
rest omitted. -/
def classInputW : ClassroomInput :=
  { title := some "Jazz Academy", subject := some "jazz",
    level := some "all", description := none, masterId := some 1,
    maxStudents := none, isActive := none,
    academyName := some "Jazz House", about := none, instruments := none,
    curriculum := none, heroImage := none, logoImage := none,
    aboutImage := none, primaryColor := none, secondaryColor := none,
    contactEmail := none, contactPhone := none, website := none,
    socialLinks := none, features := none, testimonials := none,
    pricing := none, schedule := none, address := none, isPublic := none,
    customSlug := some "jazz-house" }

/-- The validated form of `classInputW` with defaults applied. -/
def classParsedW : InsertClassroom :=
  { title := "Jazz Academy", subject := "jazz", level := "all",
    description := none, masterId := some 1, maxStudents := 50,
    isActive := true, academyName := some "Jazz House", about := none,
    instruments := [], curriculum := none, heroImage := none,
    logoImage := none, aboutImage := none, primaryColor := "#3B82F6",
    secondaryColor := "#10B981", contactEmail := none,
    contactPhone := none, website := none, socialLinks := none,
    features := [], testimonials := none, pricing := none,
    schedule := none, address := none, isPublic := true,
    customSlug := some "jazz-house" }

/-- Witness for C6 at concrete payloads over the empty store. -/
theorem c6_witness :
    (∃ row db2,
      createUserOp extModel dbEmpty 3 regParsedGood = Except.ok (row, db2) ∧
      getUserByIdOp db2 row.id = Except.ok (some row)) ∧
    (∃ row db2,
      createCourseOp dbEmpty 3 courseParsedW = Except.ok (row, db2) ∧
      getCourseByIdOp db2 row.id = Except.ok (some row) ∧
      row.status = "draft" ∧ row.maxStudents = 100 ∧
      row.tags = ["guitar", "beginner"]) ∧
    (∃ row db2,
      createClassroomOp dbEmpty 3 classParsedW = Except.ok (row, db2) ∧
      getClassroomByIdOp db2 row.id = Except.ok (some row) ∧
      row.primaryColor = "#3B82F6" ∧ row.customSlug = some "jazz-house") := by
  refine ⟨?_, ?_, ?_⟩
  · obtain ⟨row, db2, hop, hget, -⟩ :=
      c6_create_then_get_roundtrip.1 extModel dbEmpty 3 regBodyGood
        regParsedGood rfl rfl (by intro u hu; cases hu) rfl
    exact ⟨row, db2, hop, hget⟩
  · obtain ⟨row, db2, hop, hget, ht, hde, hc, hl, hp, hdu, hm, him, hia,
      hst, hap, han, hsy, hpr, hlo, hta, hdi, hew, hmx, hce, htg⟩ :=
      c6_create_then_get_roundtrip.2.1 dbEmpty 3 courseInputW
        courseParsedW rfl rfl (by intro c hc; cases hc)
    exact ⟨row, db2, hop, hget, hst, hmx, htg⟩
  · obtain ⟨row, db2, hop, hget, ht, hsj, hl, hde, hm, hmx, hia, han, hab,
      hin, hcu, hhi, hli, hai, hpc, hsc, hcej, hcp, hw, hsl, hfe, hte, hpg,
      hsch, had, hip, hcs⟩ :=
      c6_create_then_get_roundtrip.2.2 dbEmpty 3 classInputW
        classParsedW rfl rfl (by intro c hc; cases hc)
    exact ⟨row, db2, hop, hget, hpc, hcs⟩

/-- C7: deleting an existing course id succeeds and a subsequent
get-by-id reports not found (the handler answers 404); deleting a
non-existent id makes the Prisma delete throw, so the delete handler
fails with 500 instead of reporting success. -/
theorem c7_delete_then_get_semantics :
    (∀ db id c, db.up = true →
      db.courses.find? (fun x => x.id == id) = some c →
      ∃ db2, deleteCourseOp db id = Except.ok db2 ∧
        getCourseByIdOp db2 id = Except.ok none ∧
        getCourseHandler db2 id = (404, none) ∧
        deleteCourseHandler db id = (200, some "Course deleted successfully", db2)) ∧
    (∀ db id, db.up = true →
      db.courses.find? (fun x => x.id == id) = none →
      deleteCourseHandler db id = (500, none, db)) := by
  constructor
  · intro db id c hup hfind
    have hnone : (db.courses.filter (fun x => !(x.id == id))).find?
        (fun x => x.id == id) = none := by
      rw [List.find?_eq_none]
      intro x hx
      have hmf := List.mem_filter.mp hx
      simpa using hmf.2
    refine ⟨{ db with courses := db.courses.filter (fun x => !(x.id == id)) },
      ?_, ?_, ?_, ?_⟩
    · simp [deleteCourseOp, hup, hfind]
    · simp [getCourseByIdOp, hup, hnone]
    · simp [getCourseHandler, getCourseByIdOp, hup, hnone]
    · simp [deleteCourseHandler, deleteCourseOp, hup, hfind]
  · intro db id hup hfind
    simp [deleteCourseHandler, deleteCourseOp, hup, hfind]

/-- The course row created from `courseParsedW` with id 1. -/
def courseFixture : Course := mkCourse 1 0 courseParsedW

/-- A store holding the single course `courseFixture`. -/
def dbOneCourse : DB :=
  { dbEmpty with courses := [courseFixture], nextCourseId := 2 }

/-- Witness for C7: delete of the stored id 1 then get answers 404;
delete of the absent id 99 answers 500. -/
theorem c7_witness :
    (∃ db2, deleteCourseOp dbOneCourse 1 = Except.ok db2 ∧
      getCourseByIdOp db2 1 = Except.ok none ∧
      getCourseHandler db2 1 = (404, none) ∧
      deleteCourseHandler dbOneCourse 1 = (200, some "Course deleted successfully", db2)) ∧
    deleteCourseHandler dbOneCourse 99 = (500, none, dbOneCourse) :=
  ⟨c7_delete_then_get_semantics.1 dbOneCourse 1 courseFixture rfl rfl,
   c7_delete_then_get_semantics.2 dbOneCourse 99 rfl rfl⟩

/-- C8: the handlers follow the status-code policy: 200 for successful
reads, 201 for successful creates, 200 with a message body for
successful deletes, 404 for an empty lookup, 400 for a validation
failure at a validated endpoint, and 500 for every other failure —
including a PATCH on a non-existent id and a database failure. -/
theorem c8_status_code_policy :
    (∀ db, db.up = true → (getUsersHandler db).1 = 200) ∧
    (∀ db id u, db.up = true →
      db.users.find? (fun x => x.id == id) = some u →
      getUserHandler db id = (200, some u)) ∧
    (∀ db id, db.up = true →
      db.users.find? (fun x => x.id == id) = none →
      getUserHandler db id = (404, none)) ∧
    (∀ ext db now body data, db.up = true →
      parseInsertUser ext body = some data →
      ext.emailValid data.email = true →
      db.users.any (fun u => u.username == data.username || u.email == data.email) = false →
      (createUserHandler ext db now body).1 = 201) ∧
    (∀ ext db now body, parseInsertUser ext body = none →
      (createUserHandler ext db now body).1 = 400) ∧
    (∀ db id c, db.up = true →
      db.courses.find? (fun x => x.id == id) = some c →
      (deleteCourseHandler db id).1 = 200 ∧
      (deleteCourseHandler db id).2.1 = some "Course deleted successfully") ∧
    (∀ db id u, db.up = true →
      db.courses.find? (fun x => x.id == id) = none →
      patchCourseHandler db id u = (500, none, db)) ∧
    (∀ db, db.up = false → (getUsersHandler db).1 = 500) := by
  refine ⟨?_, ?_, ?_, ?_, ?_, ?_, ?_, ?_⟩
  · intro db hup
    simp [getUsersHandler, getUsersOp, hup]
  · intro db id u hup hf
    simp [getUserHandler, getUserByIdOp, hup, hf]
  · intro db id hup hf
    simp [getUserHandler, getUserByIdOp, hup, hf]
  · intro ext db now body data hup hp hev huniq
    simp [createUserHandler, hp, createUserOp, hup, hev, huniq]
  · intro ext db now body hp
    simp [createUserHandler, hp]
  · intro db id c hup hf
    constructor <;> simp [deleteCourseHandler, deleteCourseOp, hup, hf]
  · intro db id u hup hf
    simp [patchCourseHandler, updateCourseOp, hup, hf]
  · intro db hup
    simp [getUsersHandler, getUsersOp, hup]

/-- A registration body missing the required email field. -/
def regBodyNoEmail : UserInput := { regBodyGood with email := none }

/-- A course update with no field provided. -/
def emptyCourseUpd : CourseUpdate :=
  { title := none, description := none, category := none, level := none,
    price := none, duration := none, mentorId := none, imageUrl := none,
    isActive := none, status := none, approvedBy := none,
    adminNotes := none, syllabus := none, prerequisites := none,
    learningObjectives := none, targetAudience := none,
    difficulty := none, estimatedWeeks := none, maxStudents := none,
    currentEnrollments := none, tags := none }

/-- The store with the database connection down. -/
def dbDown : DB := { dbEmpty with up := false }

/-- Witness for C8 instantiating every arm of the policy. -/
theorem c8_witness :
    (getUsersHandler dbOneUser).1 = 200 ∧
    getUserHandler dbOneUser 1 = (200, some userFixture) ∧
    getUserHandler dbOneUser 99 = (404, none) ∧
    (createUserHandler extModel dbEmpty 3 regBodyGood).1 = 201 ∧
    (createUserHandler extModel dbEmpty 3 regBodyNoEmail).1 = 400 ∧
    (deleteCourseHandler dbOneCourse 1).1 = 200 ∧
    patchCourseHandler dbOneCourse 99 emptyCourseUpd = (500, none, dbOneCourse) ∧
    (getUsersHandler dbDown).1 = 500 :=
  ⟨c8_status_code_policy.1 dbOneUser rfl,
   c8_status_code_policy.2.1 dbOneUser 1 userFixture rfl rfl,
   c8_status_code_policy.2.2.1 dbOneUser 99 rfl rfl,
   c8_status_code_policy.2.2.2.1 extModel dbEmpty 3 regBodyGood regParsedGood
     rfl rfl rfl rfl,
   c8_status_code_policy.2.2.2.2.1 extModel dbEmpty 3 regBodyNoEmail rfl,
   (c8_status_code_policy.2.2.2.2.2.1 dbOneCourse 1 courseFixture rfl rfl).1,
   c8_status_code_policy.2.2.2.2.2.2.1 dbOneCourse 99 emptyCourseUpd rfl rfl,
   c8_status_code_policy.2.2.2.2.2.2.2 dbDown rfl⟩

/-- C9: GET /health answers 200 with body status "healthy" for every
database state — the handler never touches the database — and
GET /ready answers 200 exactly when the lightweight `storage.getUsers`
read succeeds, 503 otherwise. -/
theorem c9_health_always_ready_gated :
    ∀ environment version now uptime db,
      (healthHandler environment version now uptime db).1 = 200 ∧
      (healthHandler environment version now uptime db).2.status = "healthy" ∧
      ((readyHandler db).1 = 200 ↔ exceptOk (getUsersOp db) = true) ∧
      (readyHandler db = if db.up then (200, "ready") else (503, "not ready")) := by
  intro environment version now uptime db
  refine ⟨rfl, rfl, ?_, ?_⟩
  · cases hup : db.up <;> simp [readyHandler, getUsersOp, exceptOk, hup]
  · cases hup : db.up <;> simp [readyHandler, getUsersOp, hup]

/-- The register handler returns either no user object or a
password-stripped one. -/
theorem registerHandler_payload_shape (ext : Ext) (db : DB) (now : Nat)
    (body : UserInput) :
    (registerHandler ext db now body).2.1 = none ∨
    ∃ u : User,
      (registerHandler ext db now body).2.1 = some (stripPassword (userEntries u)) := by
  cases hp : parseInsertUser ext { body with role := some (registerRole body.role) } with
  | none => exact Or.inl (by simp [registerHandler, hp])
  | some data =>
    cases hq : getUserByEmailOp db data.email with
    | error e => exact Or.inl (by simp [registerHandler, hp, hq])
    | ok mu =>
      cases mu with
      | some u => exact Or.inl (by simp [registerHandler, hp, hq])
      | none =>
        cases hc : createUserOp ext db now { data with password := ext.hash data.password } with
        | error e => exact Or.inl (by simp [registerHandler, hp, hq, hc])
        | ok pair =>
          obtain ⟨user, db2⟩ := pair
          exact Or.inr ⟨user, by simp [registerHandler, hp, hq, hc]⟩

/-- The login handler returns either no user object or a
password-stripped one. -/
theorem loginHandler_payload_shape (ext : Ext) (db : DB)
    (email password : Option String) :
    (loginHandler ext db email password).2 = none ∨
    ∃ u : User,
      (loginHandler ext db email password).2 = some (stripPassword (userEntries u)) := by
  by_cases h1 : (!(truthyStr email) || !(truthyStr password)) = true
  · exact Or.inl (by simp [loginHandler, h1])
  · cases hq : getUserByEmailOp db (email.getD "") with
    | error e => exact Or.inl (by simp [loginHandler, h1, hq])
    | ok mu =>
      cases mu with
      | none => exact Or.inl (by simp [loginHandler, h1, hq])
      | some u =>
        by_cases hc : ext.compare (password.getD "") u.password = true
        · exact Or.inr ⟨u, by simp [loginHandler, h1, hq, hc]⟩
        · exact Or.inl (by simp [loginHandler, h1, hq, hc])

/-- C10: whenever a register or login response carries a user object,
that object holds no `password` key — although every stored user row
serializes with one. -/
theorem c10_password_stripped_from_responses :
    (∀ ext db now body es,
      (registerHandler ext db now body).2.1 = some es →
      es.lookup "password" = none) ∧
    (∀ ext db email password es,
      (loginHandler ext db email password).2 = some es →
      es.lookup "password" = none) ∧
    (∀ u : User, (userEntries u).lookup "password" = some (JVal.s u.password)) := by
  refine ⟨?_, ?_, ?_⟩
  · intro ext db now body es hes
    rcases registerHandler_payload_shape ext db now body with h | ⟨u, h⟩
    · rw [h] at hes
      exact Option.noConfusion hes
    · rw [h] at hes
      injection hes with hes
      rw [← hes]
      exact lookup_stripPassword _
  · intro ext db email password es hes
    rcases loginHandler_payload_shape ext db email password with h | ⟨u, h⟩
    · rw [h] at hes
      exact Option.noConfusion hes
    · rw [h] at hes
      injection hes with hes
      rw [← hes]
      exact lookup_stripPassword _
  · intro u
    rfl

/-- The password-stripped user object of the witness registration. -/
def userEntriesW : List (String × JVal) :=
  [("id", JVal.n 1), ("username", JVal.s "dave"),
   ("email", JVal.s "dave@example.com"), ("role", JVal.s "student"),
   ("isMaster", JVal.b false), ("firstName", JVal.null),
   ("lastName", JVal.null), ("avatar", JVal.null), ("bio", JVal.null),
   ("xp", JVal.n 0), ("level", JVal.n 1), ("createdAt", JVal.n 3)]

/-- Witness for C10: a concrete register and login both answer with the
password-stripped user object, while the stored row keeps the hash. -/
theorem c10_witness :
    (registerHandler extModel dbEmpty 3 regBodyGood).2.1 = some userEntriesW ∧
    userEntriesW.lookup "password" = none ∧
    (loginHandler extModel (registerHandler extModel dbEmpty 3 regBodyGood).2.2
      (some "dave@example.com") (some "hunter2")).2 = some userEntriesW ∧
    (userEntries userFixture).lookup "password" = some (JVal.s "$2b$10$hunter2") :=
  ⟨rfl,
   c10_password_stripped_from_responses.1 extModel dbEmpty 3 regBodyGood
     userEntriesW rfl,
   rfl,
   c10_password_stripped_from_responses.2.2 userFixture⟩

end HarmonyLearn
